import Mathlib

/-!
Shallow embedding of `src/main.py` of danielcapelasso/audiotranscribe:
the FastAPI endpoint `transcribe_and_analyze` (primary/fallback speech-to-text,
optional clean/analysis step, field defaulting) and the `/transcribe` boundary.

The two speech-to-text backends and the text-generation (analysis) backend are
modelled as function parameters (a `Backends` record); the pipeline is a pure
function of the request data and those oracles, returning the outcome together
with a trace of external calls made (audio read, primary attempt, fallback
attempt, analysis call).
-/

/-- Python truthiness of an `Optional[str]`: `None` and `""` are falsy.
Models `if not OPENAI_API_KEY` at src/main.py line 86. -/
def strFalsy : Option String → Bool
  | none => true
  | some s => s = ""

/-- Python `x or y` on `Optional[str]` values: returns `y` when `x` is `None`
or the empty string.  Models line 103 `getattr(transcript, "language", None) or
language_hint`. -/
def pyOr : Option String → Option String → Option String
  | none,   y => y
  | some s, y => if s = "" then y else some s

/-- Python `x or d` with a string default: models line 95
`file.filename or "audio.wav"`. -/
def pyOrDefault : Option String → String → String
  | none,   d => d
  | some s, d => if s = "" then d else s

/-- Output of one speech-to-text backend call: `transcript.text` plus the
`language` attribute when the object carries one
(`getattr(transcript, "language", None)`). -/
structure TranscriptOut where
  text : String
  language : Option String
deriving DecidableEq, Repr

/-- One field of the parsed structured-analysis output dictionary: the key may
be absent, present with JSON `null`, or present with a value.  Python
`dict.get(k, d)` returns `d` only when the key is absent; a stored `None` is
returned as `None`. -/
inductive JField (α : Type) where
  | absent : JField α
  | null : JField α
  | val (v : α) : JField α
deriving DecidableEq, Repr

/-- The parsed structured output of the analysis backend
(`resp.output[0].content[0].input_json`), one `JField` per key of the
advisory schema at src/main.py lines 53-73.  The `language` key may be present
but is never read by the endpoint. -/
structure AnalysisOutput where
  language : JField String
  cleaned_transcript : JField String
  summary : JField String
  speakers : JField (List String)
  questions_by_manager : JField (List String)
  common_actions_by_staff : JField (List String)
  intents_detected : JField (List String)
  recommended_agent_behaviors : JField (List String)
deriving DecidableEq, Repr

/-- Python `str.strip()` with no argument: remove leading and trailing
whitespace characters. -/
def pyStrip (s : String) : String :=
  String.mk
    (((s.data.dropWhile Char.isWhitespace).reverse.dropWhile
        Char.isWhitespace).reverse)

/-- Models `output.get(key, "").strip()` (src/main.py lines 151-152) for a
scalar text field: an absent key yields `""`, a present string is stripped of
surrounding whitespace, and a stored `null` makes `.strip()` raise
`AttributeError` (`None` has no `strip`), which the surrounding `except` turns
into an analysis failure. -/
def getStrField : JField String → Except String String
  | .absent => .ok ""
  | .null => .error "AttributeError: 'NoneType' object has no attribute 'strip'"
  | .val s => .ok (pyStrip s)

/-- Models `output.get(key, [])` (src/main.py lines 153-157) for a list field:
an absent key yields `[]`; a stored `null` yields Python `None`, which later
fails `AnalyzeResponse` validation (the field is typed `list[str]`). -/
def getListField : JField (List String) → Option (List String)
  | .absent => some []
  | .null => none
  | .val l => some l

/-- The response model `AnalyzeResponse` of src/main.py lines 20-29. -/
structure AnalyzeResponse where
  language : Option String
  raw_transcript : String
  cleaned_transcript : String
  summary : String
  speakers : List String
  questions_by_manager : List String
  common_actions_by_staff : List String
  intents_detected : List String
  recommended_agent_behaviors : List String
deriving DecidableEq, Repr

/-- Outcome of one request: a successful `AnalyzeResponse`, an
`HTTPException(status_code, detail)` raised by the endpoint, or an exception
that escapes the endpoint's own handlers (pydantic response validation). -/
inductive Outcome where
  | ok (r : AnalyzeResponse) : Outcome
  | http (status : Nat) (detail : String) : Outcome
  | crash (msg : String) : Outcome
deriving DecidableEq, Repr

/-- External effects of one request, in order: reading the uploaded audio,
each speech-to-text attempt (with the exact bytes, filename hint and language
hint passed), and the analysis call (with the exact raw transcript passed). -/
inductive Call where
  | readAudio : Call
  | primary (audio : List Nat) (name : String) (hint : Option String) : Call
  | fallback (audio : List Nat) (name : String) (hint : Option String) : Call
  | analyzeCall (raw : String) : Call
deriving DecidableEq, Repr

/-- The three external capabilities used by the endpoint:
`client.audio.transcriptions.create` with model `gpt-4o-mini-transcribe`
(primary), the same with model `whisper-1` (fallback), and
`client.responses.create` with model `gpt-4o-mini` (analysis, already parsed
to its structured output). Each may fail, modelling a raised exception. -/
structure Backends where
  primaryTranscribe : List Nat → String → Option String → Except String TranscriptOut
  fallbackTranscribe : List Nat → String → Option String → Except String TranscriptOut
  analyze : String → Except String AnalysisOutput

/-- The request's `mode` form field after boundary validation:
`Literal["clean","literal"]` at src/main.py line 78. -/
inductive Mode where
  | clean : Mode
  | literal : Mode
deriving DecidableEq, Repr

/-- Models the FastAPI inbound boundary for the declaration
`mode: Literal["clean","literal"] = Form(default="clean")` (line 78): an
omitted field defaults to `clean`; any value other than the two literals is
rejected with a validation error before the endpoint body runs. -/
def parseMode : Option String → Except String Mode
  | none => .ok .clean
  | some s =>
    if s = "clean" then .ok .clean
    else if s = "literal" then .ok .literal
    else .error "Input should be 'clean' or 'literal'"

/-- Construction of the final `AnalyzeResponse` at src/main.py lines 161-173,
including pydantic validation of the list fields: a Python `None` in a
`list[str]` field raises a validation error outside the endpoint's handlers. -/
def buildCleanResponse (lang : Option String) (raw cleaned summary : String)
    (speakers questions actions intents recs : Option (List String)) : Outcome :=
  match speakers, questions, actions, intents, recs with
  | some sp, some qs, some ac, some it, some rb =>
    .ok { language := lang
          raw_transcript := raw
          cleaned_transcript := if cleaned = "" then raw else cleaned
          summary := summary
          speakers := sp
          questions_by_manager := qs
          common_actions_by_staff := ac
          intents_detected := it
          recommended_agent_behaviors := rb }
  | _, _, _, _, _ =>
    .crash "pydantic ValidationError: input should be a valid list"

/-- Steps after a successful transcription (src/main.py lines 118-173):
return the literal response, or run the analysis step and assemble the
cleaned response with field-level defaulting. -/
def afterTranscription (B : Backends) (mode : Mode) (lang : Option String)
    (raw_text : String) (calls : List Call) : Outcome × List Call :=
  match mode with
  | .literal =>
    (.ok { language := lang
           raw_transcript := raw_text
           cleaned_transcript := raw_text
           summary := ""
           speakers := []
           questions_by_manager := []
           common_actions_by_staff := []
           intents_detected := []
           recommended_agent_behaviors := [] }, calls)
  | .clean =>
    let calls := calls ++ [Call.analyzeCall raw_text]
    match B.analyze raw_text with
    | .error e => (.http 500 ("Erro ao analisar transcrição: " ++ e), calls)
    | .ok output =>
      match getStrField output.cleaned_transcript with
      | .error e => (.http 500 ("Erro ao analisar transcrição: " ++ e), calls)
      | .ok cleaned =>
        match getStrField output.summary with
        | .error e => (.http 500 ("Erro ao analisar transcrição: " ++ e), calls)
        | .ok summary =>
          (buildCleanResponse lang raw_text cleaned summary
            (getListField output.speakers)
            (getListField output.questions_by_manager)
            (getListField output.common_actions_by_staff)
            (getListField output.intents_detected)
            (getListField output.recommended_agent_behaviors), calls)

/-- The endpoint `transcribe_and_analyze` (src/main.py lines 76-173) as a pure
function of the configured API key, the backends, and the request data; it
returns the outcome and the trace of external calls made. -/
def transcribe_and_analyze (apiKey : Option String) (B : Backends)
    (audio : List Nat) (filename : Option String) (mode : Mode)
    (language_hint : Option String) : Outcome × List Call :=
  if strFalsy apiKey then
    (.http 500 "OPENAI_API_KEY não configurada no ambiente.", [])
  else
    let fname := pyOrDefault filename "audio.wav"
    match B.primaryTranscribe audio fname language_hint with
    | .ok t =>
      afterTranscription B mode (pyOr t.language language_hint) t.text
        [Call.readAudio, Call.primary audio fname language_hint]
    | .error _ =>
      match B.fallbackTranscribe audio fname language_hint with
      | .ok t =>
        afterTranscription B mode language_hint t.text
          [Call.readAudio, Call.primary audio fname language_hint,
           Call.fallback audio fname language_hint]
      | .error e2 =>
        (.http 400 ("Erro ao processar áudio: " ++ e2),
         [Call.readAudio, Call.primary audio fname language_hint,
          Call.fallback audio fname language_hint])

/-- The full `/transcribe` route: boundary validation of the `mode` form field
followed by the endpoint body.  An invalid `mode` value is rejected with a
422 validation error before the pipeline runs. -/
def handleRequest (apiKey : Option String) (B : Backends) (audio : List Nat)
    (filename : Option String) (modeStr : Option String)
    (language_hint : Option String) : Outcome × List Call :=
  match parseMode modeStr with
  | .error e => (.http 422 e, [])
  | .ok m => transcribe_and_analyze apiKey B audio filename m language_hint

/-! ## Helper lemmas -/

/-- The post-transcription step only appends the analysis call (in clean mode)
to the call trace it is given. -/
lemma afterTranscription_trace (B : Backends) (mode : Mode) (lang : Option String)
    (raw : String) (calls : List Call) :
    (afterTranscription B mode lang raw calls).2 = calls ∨
    (afterTranscription B mode lang raw calls).2 = calls ++ [Call.analyzeCall raw] := by
  cases mode with
  | literal => exact Or.inl rfl
  | clean =>
    refine Or.inr ?_
    simp only [afterTranscription]
    split
    · rfl
    · split
      · rfl
      · split
        · rfl
        · rfl

/-- In literal mode the post-transcription step returns exactly the literal
response and the unchanged trace. -/
lemma afterTranscription_literal (B : Backends) (lang : Option String)
    (raw : String) (calls : List Call) :
    afterTranscription B Mode.literal lang raw calls =
      (Outcome.ok { language := lang, raw_transcript := raw,
                    cleaned_transcript := raw, summary := "", speakers := [],
                    questions_by_manager := [], common_actions_by_staff := [],
                    intents_detected := [], recommended_agent_behaviors := [] },
       calls) := rfl

/-- A successful outcome of the post-transcription step always carries the
language and raw transcript it was given. -/
lemma afterTranscription_ok_fields (B : Backends) (mode : Mode)
    (lang : Option String) (raw : String) (calls : List Call)
    (r : AnalyzeResponse)
    (h : (afterTranscription B mode lang raw calls).1 = Outcome.ok r) :
    r.language = lang ∧ r.raw_transcript = raw := by
  cases mode with
  | literal =>
    rw [afterTranscription_literal] at h
    cases h
    exact ⟨rfl, rfl⟩
  | clean =>
    simp only [afterTranscription] at h
    split at h
    · cases h
    · split at h
      · cases h
      · split at h
        · cases h
        · simp only [buildCleanResponse] at h
          split at h
          · cases h
            exact ⟨rfl, rfl⟩
          · cases h

/-! ## C8: missing credential fails fast -/

/-- C8: when the required backend credential (`OPENAI_API_KEY`) is absent (or
empty, which Python treats the same), the pipeline invocation fails
immediately with the configuration-error signal `HTTPException(500)` and an
empty call trace: the audio is never read and no backend attempt is made. -/
theorem C8_missing_credential_fails_fast (apiKey : Option String) (B : Backends)
    (audio : List Nat) (filename : Option String) (mode : Mode)
    (hint : Option String) (hk : strFalsy apiKey = true) :
    transcribe_and_analyze apiKey B audio filename mode hint =
      (Outcome.http 500 "OPENAI_API_KEY não configurada no ambiente.", []) := by
  simp [transcribe_and_analyze, hk]

/-- Arbitrary backends used to instantiate C8 at a concrete input. -/
def witnessBackends8 : Backends where
  primaryTranscribe := fun _ _ _ => Except.ok ⟨"texto", none⟩
  fallbackTranscribe := fun _ _ _ => Except.ok ⟨"texto", none⟩
  analyze := fun _ => Except.error "unused"

theorem C8_missing_credential_fails_fast_witness :
    transcribe_and_analyze none witnessBackends8 [1, 2, 3] (some "a.wav")
        Mode.clean (some "pt") =
      (Outcome.http 500 "OPENAI_API_KEY não configurada no ambiente.", []) :=
  C8_missing_credential_fails_fast none witnessBackends8 [1, 2, 3] (some "a.wav")
    Mode.clean (some "pt") rfl

/-! ## C2: both transcription attempts fail -/

/-- C2: when both the primary and the fallback speech-to-text attempts fail,
the request fails with the client-facing `HTTPException(400)` whose detail
carries the terminal (fallback) attempt's cause, and no response record is
returned. -/
theorem C2_both_attempts_fail (apiKey : Option String) (B : Backends)
    (audio : List Nat) (filename : Option String) (mode : Mode)
    (hint : Option String) (e1 e2 : String)
    (hk : strFalsy apiKey = false)
    (hp : B.primaryTranscribe audio (pyOrDefault filename "audio.wav") hint =
      Except.error e1)
    (hf : B.fallbackTranscribe audio (pyOrDefault filename "audio.wav") hint =
      Except.error e2) :
    (transcribe_and_analyze apiKey B audio filename mode hint).1 =
      Outcome.http 400 ("Erro ao processar áudio: " ++ e2) ∧
    ∀ r : AnalyzeResponse,
      (transcribe_and_analyze apiKey B audio filename mode hint).1 ≠
        Outcome.ok r := by
  simp [transcribe_and_analyze, hk, hp, hf]

/-- Backends whose two transcription attempts both fail, to instantiate C2. -/
def witnessBackends2 : Backends where
  primaryTranscribe := fun _ _ _ => Except.error "primary down"
  fallbackTranscribe := fun _ _ _ => Except.error "fallback down"
  analyze := fun _ => Except.error "unused"

theorem C2_both_attempts_fail_witness :
    (transcribe_and_analyze (some "sk") witnessBackends2 [7] (some "call.mp3")
        Mode.clean (some "es")).1 =
      Outcome.http 400 ("Erro ao processar áudio: " ++ "fallback down") :=
  (C2_both_attempts_fail (some "sk") witnessBackends2 [7] (some "call.mp3")
    Mode.clean (some "es") "primary down" "fallback down" rfl rfl rfl).1

/-! ## C1: fallback invoked with identical arguments -/

/-- C1: whenever the primary speech-to-text attempt fails (and the credential
check passed), the call trace begins with the audio read, the primary attempt,
and then a fallback attempt carrying exactly the same audio bytes, the same
filename hint, and the same language hint as the primary attempt. -/
theorem C1_fallback_same_arguments (apiKey : Option String) (B : Backends)
    (audio : List Nat) (filename : Option String) (mode : Mode)
    (hint : Option String) (e : String)
    (hk : strFalsy apiKey = false)
    (hp : B.primaryTranscribe audio (pyOrDefault filename "audio.wav") hint =
      Except.error e) :
    (transcribe_and_analyze apiKey B audio filename mode hint).2.take 3 =
      [Call.readAudio,
       Call.primary audio (pyOrDefault filename "audio.wav") hint,
       Call.fallback audio (pyOrDefault filename "audio.wav") hint] := by
  simp only [transcribe_and_analyze, hk, Bool.false_eq_true, if_false, hp]
  cases hf : B.fallbackTranscribe audio (pyOrDefault filename "audio.wav") hint with
  | ok t =>
    rcases afterTranscription_trace B mode hint t.text
        [Call.readAudio, Call.primary audio (pyOrDefault filename "audio.wav") hint,
         Call.fallback audio (pyOrDefault filename "audio.wav") hint] with h | h <;>
      rw [h] <;> rfl
  | error e2 => rfl

/-- Backends whose primary transcription fails, to instantiate C1. -/
def witnessBackends1 : Backends where
  primaryTranscribe := fun _ _ _ => Except.error "boom"
  fallbackTranscribe := fun _ _ _ => Except.ok ⟨"texto", none⟩
  analyze := fun _ => Except.error "unused"

theorem C1_fallback_same_arguments_witness :
    (transcribe_and_analyze (some "sk") witnessBackends1 [1, 2, 3] (some "a.mp3")
        Mode.literal (some "pt")).2.take 3 =
      [Call.readAudio,
       Call.primary [1, 2, 3] "a.mp3" (some "pt"),
       Call.fallback [1, 2, 3] "a.mp3" (some "pt")] :=
  C1_fallback_same_arguments (some "sk") witnessBackends1 [1, 2, 3] (some "a.mp3")
    Mode.literal (some "pt") "boom" rfl rfl

/-! ## C3: literal mode skips the analyzer -/

/-- C3: on any successful request with `mode = literal`, the response's
`cleaned_transcript` equals `raw_transcript`, the `summary` is empty, all five
analysis list fields are empty, and no analysis call appears in the trace. -/
theorem C3_literal_mode (apiKey : Option String) (B : Backends)
    (audio : List Nat) (filename : Option String) (hint : Option String)
    (r : AnalyzeResponse)
    (hr : (transcribe_and_analyze apiKey B audio filename Mode.literal hint).1 =
      Outcome.ok r) :
    r.cleaned_transcript = r.raw_transcript ∧ r.summary = "" ∧
    r.speakers = [] ∧ r.questions_by_manager = [] ∧
    r.common_actions_by_staff = [] ∧ r.intents_detected = [] ∧
    r.recommended_agent_behaviors = [] ∧
    ∀ s, Call.analyzeCall s ∉
      (transcribe_and_analyze apiKey B audio filename Mode.literal hint).2 := by
  cases hk : strFalsy apiKey with
  | true => rw [C8_missing_credential_fails_fast apiKey B audio filename Mode.literal hint hk] at hr; cases hr
  | false =>
    cases hp : B.primaryTranscribe audio (pyOrDefault filename "audio.wav") hint with
    | ok t =>
      simp only [transcribe_and_analyze, hk, Bool.false_eq_true, if_false, hp,
        afterTranscription_literal] at hr ⊢
      injection hr with h
      subst h
      simp
    | error e1 =>
      cases hf : B.fallbackTranscribe audio (pyOrDefault filename "audio.wav") hint with
      | ok t =>
        simp only [transcribe_and_analyze, hk, Bool.false_eq_true, if_false, hp, hf,
          afterTranscription_literal] at hr ⊢
        injection hr with h
        subst h
        simp
      | error e2 =>
        simp [transcribe_and_analyze, hk, hp, hf] at hr

/-- Backends returning the literal-scenario transcript, to instantiate C3. -/
def witnessBackends3 : Backends where
  primaryTranscribe := fun _ _ _ => Except.ok ⟨"hola como estas", none⟩
  fallbackTranscribe := fun _ _ _ => Except.error "unused"
  analyze := fun _ => Except.error "unused"

/-- The literal-mode response produced by `witnessBackends3`. -/
def witnessResponse3 : AnalyzeResponse where
  language := none
  raw_transcript := "hola como estas"
  cleaned_transcript := "hola como estas"
  summary := ""
  speakers := []
  questions_by_manager := []
  common_actions_by_staff := []
  intents_detected := []
  recommended_agent_behaviors := []

theorem C3_literal_mode_witness :
    witnessResponse3.cleaned_transcript = witnessResponse3.raw_transcript ∧
    witnessResponse3.summary = "" ∧ witnessResponse3.speakers = [] ∧
    witnessResponse3.questions_by_manager = [] ∧
    witnessResponse3.common_actions_by_staff = [] ∧
    witnessResponse3.intents_detected = [] ∧
    witnessResponse3.recommended_agent_behaviors = [] ∧
    Call.analyzeCall "hola como estas" ∉
      (transcribe_and_analyze (some "sk") witnessBackends3 [8] (some "hello.wav")
        Mode.literal none).2 := by
  have h := C3_literal_mode (some "sk") witnessBackends3 [8] (some "hello.wav")
    none witnessResponse3 rfl
  exact ⟨h.1, h.2.1, h.2.2.1, h.2.2.2.1, h.2.2.2.2.1, h.2.2.2.2.2.1,
    h.2.2.2.2.2.2.1, h.2.2.2.2.2.2.2 "hola como estas"⟩

/-! ## Clean-mode success characterization -/

/-- The value the endpoint ends up with for a scalar text field of the
analysis output: empty for an absent key, the trimmed string otherwise
(a null key never reaches this point — it aborts the request). -/
def strDefault : JField String → String
  | .absent => ""
  | .null => ""
  | .val s => pyStrip s

/-- The value the endpoint ends up with for a list field of the analysis
output: empty for an absent key, the stored list otherwise. -/
def listDefault : JField (List String) → List String
  | .absent => []
  | .null => []
  | .val l => l

lemma getStrField_not_null (f : JField String) (h : f ≠ JField.null) :
    getStrField f = Except.ok (strDefault f) := by
  cases f with
  | absent => rfl
  | null => exact absurd rfl h
  | val s => rfl

lemma getListField_not_null (f : JField (List String)) (h : f ≠ JField.null) :
    getListField f = some (listDefault f) := by
  cases f with
  | absent => rfl
  | null => exact absurd rfl h
  | val l => rfl

/-- A clean-mode run whose primary transcription succeeds and whose analysis
output has no null field produces exactly the response with each field
independently defaulted and trimmed. -/
lemma clean_success_outcome (apiKey : Option String) (B : Backends)
    (audio : List Nat) (filename : Option String) (hint : Option String)
    (t : TranscriptOut) (out : AnalysisOutput)
    (hk : strFalsy apiKey = false)
    (hp : B.primaryTranscribe audio (pyOrDefault filename "audio.wav") hint =
      Except.ok t)
    (ha : B.analyze t.text = Except.ok out)
    (h1 : out.cleaned_transcript ≠ JField.null)
    (h2 : out.summary ≠ JField.null)
    (h3 : out.speakers ≠ JField.null)
    (h4 : out.questions_by_manager ≠ JField.null)
    (h5 : out.common_actions_by_staff ≠ JField.null)
    (h6 : out.intents_detected ≠ JField.null)
    (h7 : out.recommended_agent_behaviors ≠ JField.null) :
    (transcribe_and_analyze apiKey B audio filename Mode.clean hint).1 =
      Outcome.ok
        { language := pyOr t.language hint
          raw_transcript := t.text
          cleaned_transcript :=
            if strDefault out.cleaned_transcript = "" then t.text
            else strDefault out.cleaned_transcript
          summary := strDefault out.summary
          speakers := listDefault out.speakers
          questions_by_manager := listDefault out.questions_by_manager
          common_actions_by_staff := listDefault out.common_actions_by_staff
          intents_detected := listDefault out.intents_detected
          recommended_agent_behaviors := listDefault out.recommended_agent_behaviors } := by
  simp only [transcribe_and_analyze, hk, Bool.false_eq_true, if_false, hp,
    afterTranscription, ha, getStrField_not_null _ h1, getStrField_not_null _ h2,
    getListField_not_null _ h3, getListField_not_null _ h4,
    getListField_not_null _ h5, getListField_not_null _ h6,
    getListField_not_null _ h7, buildCleanResponse]

/-! ## C4: field-level defaulting of the analysis output -/

/-- C4 (amended): in clean mode with a successful analysis, each field that is
absent from the backend output is independently replaced by its
type-appropriate empty default (empty string for scalar text fields, empty
list for list fields), scalar text fields are trimmed, and each response field
depends only on its own output field.  (A present-but-null field, by contrast,
is not defaulted: it makes the request fail.) -/
theorem C4_absent_fields_defaulted (apiKey : Option String) (B : Backends)
    (audio : List Nat) (filename : Option String) (hint : Option String)
    (t : TranscriptOut) (out : AnalysisOutput)
    (hk : strFalsy apiKey = false)
    (hp : B.primaryTranscribe audio (pyOrDefault filename "audio.wav") hint =
      Except.ok t)
    (ha : B.analyze t.text = Except.ok out)
    (h1 : out.cleaned_transcript ≠ JField.null)
    (h2 : out.summary ≠ JField.null)
    (h3 : out.speakers ≠ JField.null)
    (h4 : out.questions_by_manager ≠ JField.null)
    (h5 : out.common_actions_by_staff ≠ JField.null)
    (h6 : out.intents_detected ≠ JField.null)
    (h7 : out.recommended_agent_behaviors ≠ JField.null) :
    (transcribe_and_analyze apiKey B audio filename Mode.clean hint).1 =
      Outcome.ok
        { language := pyOr t.language hint
          raw_transcript := t.text
          cleaned_transcript :=
            if strDefault out.cleaned_transcript = "" then t.text
            else strDefault out.cleaned_transcript
          summary := strDefault out.summary
          speakers := listDefault out.speakers
          questions_by_manager := listDefault out.questions_by_manager
          common_actions_by_staff := listDefault out.common_actions_by_staff
          intents_detected := listDefault out.intents_detected
          recommended_agent_behaviors := listDefault out.recommended_agent_behaviors } :=
  clean_success_outcome apiKey B audio filename hint t out hk hp ha h1 h2 h3 h4 h5 h6 h7

/-- Backends whose analysis output omits `summary`, `questions_by_manager` and
`intents_detected` and pads `cleaned_transcript` with whitespace. -/
def witnessBackends4 : Backends where
  primaryTranscribe := fun _ _ _ => Except.ok ⟨"bruto", some "pt"⟩
  fallbackTranscribe := fun _ _ _ => Except.error "unused"
  analyze := fun _ => Except.ok
    { language := JField.absent
      cleaned_transcript := JField.val "  limpo  "
      summary := JField.absent
      speakers := JField.val ["Gestor"]
      questions_by_manager := JField.absent
      common_actions_by_staff := JField.val []
      intents_detected := JField.absent
      recommended_agent_behaviors := JField.val ["x"] }

theorem C4_absent_fields_defaulted_witness :
    (transcribe_and_analyze (some "sk") witnessBackends4 [5] none Mode.clean
        (some "es")).1 =
      Outcome.ok
        { language := some "pt"
          raw_transcript := "bruto"
          cleaned_transcript := "limpo"
          summary := ""
          speakers := ["Gestor"]
          questions_by_manager := []
          common_actions_by_staff := []
          intents_detected := []
          recommended_agent_behaviors := ["x"] } := by
  rw [C4_absent_fields_defaulted (some "sk") witnessBackends4 [5] none (some "es")
    ⟨"bruto", some "pt"⟩
    { language := JField.absent
      cleaned_transcript := JField.val "  limpo  "
      summary := JField.absent
      speakers := JField.val ["Gestor"]
      questions_by_manager := JField.absent
      common_actions_by_staff := JField.val []
      intents_detected := JField.absent
      recommended_agent_behaviors := JField.val ["x"] }
    rfl rfl rfl
    (by decide) (by decide) (by decide) (by decide) (by decide) (by decide) (by decide)]
  rfl

/-- Analysis output whose `summary` key is present but null; every other key
holds a value. -/
def counterBackends4 : Backends where
  primaryTranscribe := fun _ _ _ => Except.ok ⟨"bruto", none⟩
  fallbackTranscribe := fun _ _ _ => Except.error "unused"
  analyze := fun _ => Except.ok
    { language := JField.absent
      cleaned_transcript := JField.val "limpo"
      summary := JField.null
      speakers := JField.val []
      questions_by_manager := JField.val []
      common_actions_by_staff := JField.val []
      intents_detected := JField.val []
      recommended_agent_behaviors := JField.val [] }

/-- C4 counterexample: a present-but-null `summary` field is not replaced by
the empty default — `None.strip()` raises, and the request fails with the
HTTP 500 analysis error, contradicting "no such missing/null field causes the
request to fail". -/
theorem C4_null_field_fails_counterexample :
    (transcribe_and_analyze (some "sk") counterBackends4 [0] (some "a.wav")
        Mode.clean none).1 =
      Outcome.http 500 ("Erro ao analisar transcrição: " ++
        "AttributeError: 'NoneType' object has no attribute 'strip'") := by
  rfl

/-! ## C5: cleaned transcript fallback and round-trip -/

/-- C5 (amended): in clean mode with a successful analysis whose cleaned text
is the string s, the response's `cleaned_transcript` equals the
whitespace-stripped s when that stripped text is non-empty and equals
`raw_transcript` when the stripped text is empty; consequently, when the
backend echoes the raw transcript unchanged and the raw transcript carries no
surrounding whitespace, `cleaned_transcript` equals `raw_transcript`. -/
theorem C5_cleaned_transcript_roundtrip (apiKey : Option String) (B : Backends)
    (audio : List Nat) (filename : Option String) (hint : Option String)
    (t : TranscriptOut) (out : AnalysisOutput) (s : String)
    (hk : strFalsy apiKey = false)
    (hp : B.primaryTranscribe audio (pyOrDefault filename "audio.wav") hint =
      Except.ok t)
    (ha : B.analyze t.text = Except.ok out)
    (hcs : out.cleaned_transcript = JField.val s)
    (h2 : out.summary ≠ JField.null)
    (h3 : out.speakers ≠ JField.null)
    (h4 : out.questions_by_manager ≠ JField.null)
    (h5 : out.common_actions_by_staff ≠ JField.null)
    (h6 : out.intents_detected ≠ JField.null)
    (h7 : out.recommended_agent_behaviors ≠ JField.null)
    (r : AnalyzeResponse)
    (hr : (transcribe_and_analyze apiKey B audio filename Mode.clean hint).1 =
      Outcome.ok r) :
    r.raw_transcript = t.text ∧
    r.cleaned_transcript = (if pyStrip s = "" then t.text else pyStrip s) ∧
    (s = t.text → pyStrip t.text = t.text → r.cleaned_transcript = t.text) := by
  have h1 : out.cleaned_transcript ≠ JField.null := by rw [hcs]; simp
  have hok := clean_success_outcome apiKey B audio filename hint t out
    hk hp ha h1 h2 h3 h4 h5 h6 h7
  rw [hr] at hok
  injection hok with h
  subst h
  refine ⟨rfl, ?_, ?_⟩
  · simp [hcs, strDefault]
  · intro hs htrim
    subst hs
    simp [hcs, strDefault, htrim]

/-- Backends whose analysis echoes the raw transcript as the cleaned text;
the primary transcript "hola" carries no surrounding whitespace. -/
def witnessBackends5 : Backends where
  primaryTranscribe := fun _ _ _ => Except.ok ⟨"hola", none⟩
  fallbackTranscribe := fun _ _ _ => Except.error "unused"
  analyze := fun raw => Except.ok
    { language := JField.absent
      cleaned_transcript := JField.val raw
      summary := JField.val "resumo"
      speakers := JField.val []
      questions_by_manager := JField.val []
      common_actions_by_staff := JField.val []
      intents_detected := JField.val []
      recommended_agent_behaviors := JField.val [] }

/-- The clean-mode response produced by `witnessBackends5`. -/
def witnessResponse5 : AnalyzeResponse where
  language := none
  raw_transcript := "hola"
  cleaned_transcript := "hola"
  summary := "resumo"
  speakers := []
  questions_by_manager := []
  common_actions_by_staff := []
  intents_detected := []
  recommended_agent_behaviors := []

theorem C5_cleaned_transcript_roundtrip_witness :
    witnessResponse5.raw_transcript = "hola" ∧
    witnessResponse5.cleaned_transcript = "hola" := by
  have h := C5_cleaned_transcript_roundtrip (some "sk") witnessBackends5 [9]
    none none ⟨"hola", none⟩
    { language := JField.absent
      cleaned_transcript := JField.val "hola"
      summary := JField.val "resumo"
      speakers := JField.val []
      questions_by_manager := JField.val []
      common_actions_by_staff := JField.val []
      intents_detected := JField.val []
      recommended_agent_behaviors := JField.val [] }
    "hola" rfl rfl rfl rfl
    (by decide) (by decide) (by decide) (by decide) (by decide) (by decide)
    witnessResponse5 rfl
  refine ⟨h.1, ?_⟩
  rw [h.2.1]
  rfl

/-- Backends whose analysis echoes the raw transcript as the cleaned text;
the primary transcript " hola" begins with a space. -/
def counterBackends5 : Backends where
  primaryTranscribe := fun _ _ _ => Except.ok ⟨" hola", none⟩
  fallbackTranscribe := fun _ _ _ => Except.error "unused"
  analyze := fun raw => Except.ok
    { language := JField.absent
      cleaned_transcript := JField.val raw
      summary := JField.val "resumo"
      speakers := JField.val []
      questions_by_manager := JField.val []
      common_actions_by_staff := JField.val []
      intents_detected := JField.val []
      recommended_agent_behaviors := JField.val [] }

/-- C5 counterexample: the analysis backend echoes the raw transcript " hola"
(non-empty) unchanged as its cleaned text, yet the response's
`cleaned_transcript` is the stripped "hola": it equals neither the analyzer's
cleaned text nor `raw_transcript`, refuting both parts of the claim. -/
theorem C5_trim_counterexample :
    (transcribe_and_analyze (some "sk") counterBackends5 [0] none Mode.clean
        none).1 =
      Outcome.ok
        { language := none
          raw_transcript := " hola"
          cleaned_transcript := "hola"
          summary := "resumo"
          speakers := []
          questions_by_manager := []
          common_actions_by_staff := []
          intents_detected := []
          recommended_agent_behaviors := [] } ∧
    (("hola" : String) == " hola") = false := by
  constructor
  · rfl
  · decide

/-! ## C6: detected language -/

/-- C6: the response's detected language is the primary backend's reported
language (when one is reported) else the caller's hint on a primary success,
and always the caller's hint on a fallback success — whatever language the
fallback backend reports is never used.  (With no hint, both cases leave the
language absent.) -/
theorem C6_detected_language (apiKey : Option String) (B : Backends)
    (audio : List Nat) (filename : Option String) (mode : Mode)
    (hint : Option String) :
    (∀ t r l, strFalsy apiKey = false →
      B.primaryTranscribe audio (pyOrDefault filename "audio.wav") hint =
        Except.ok t →
      (transcribe_and_analyze apiKey B audio filename mode hint).1 =
        Outcome.ok r →
      (t.language = some l → l ≠ "" → r.language = some l) ∧
      (t.language = none → r.language = hint)) ∧
    (∀ e t r, strFalsy apiKey = false →
      B.primaryTranscribe audio (pyOrDefault filename "audio.wav") hint =
        Except.error e →
      B.fallbackTranscribe audio (pyOrDefault filename "audio.wav") hint =
        Except.ok t →
      (transcribe_and_analyze apiKey B audio filename mode hint).1 =
        Outcome.ok r →
      r.language = hint) := by
  constructor
  · intro t r l hk hp hr
    simp only [transcribe_and_analyze, hk, Bool.false_eq_true, if_false, hp] at hr
    have hfields := afterTranscription_ok_fields B mode (pyOr t.language hint)
      t.text [Call.readAudio,
        Call.primary audio (pyOrDefault filename "audio.wav") hint] r hr
    constructor
    · intro hl hne
      rw [hfields.1, hl]
      simp [pyOr, hne]
    · intro hl
      rw [hfields.1, hl]
      rfl
  · intro e t r hk hp hf hr
    simp only [transcribe_and_analyze, hk, Bool.false_eq_true, if_false, hp, hf] at hr
    exact (afterTranscription_ok_fields B mode hint t.text
      [Call.readAudio, Call.primary audio (pyOrDefault filename "audio.wav") hint,
       Call.fallback audio (pyOrDefault filename "audio.wav") hint] r hr).1

/-- Backends whose primary transcription reports language "pt". -/
def witnessBackends6 : Backends where
  primaryTranscribe := fun _ _ _ => Except.ok ⟨"texto", some "pt"⟩
  fallbackTranscribe := fun _ _ _ => Except.error "unused"
  analyze := fun _ => Except.error "unused"

/-- The literal-mode response produced by `witnessBackends6`. -/
def witnessResponse6 : AnalyzeResponse where
  language := some "pt"
  raw_transcript := "texto"
  cleaned_transcript := "texto"
  summary := ""
  speakers := []
  questions_by_manager := []
  common_actions_by_staff := []
  intents_detected := []
  recommended_agent_behaviors := []

theorem C6_detected_language_witness : witnessResponse6.language = some "pt" :=
  ((C6_detected_language (some "sk") witnessBackends6 [1] none Mode.literal
      (some "es")).1 ⟨"texto", some "pt"⟩ witnessResponse6 "pt" rfl rfl rfl).1
    rfl (by decide)

/-! ## C7: analysis failure is fatal (strict policy) -/

/-- C7: in clean mode, when the analysis step fails (backend unreachable or
output that cannot be read as the required structure), the request fails with
the client-facing HTTP 500 error carrying the cause, whether the transcript
came from the primary or the fallback attempt; no raw-transcript-only
response is returned. -/
theorem C7_analysis_failure_is_fatal (apiKey : Option String) (B : Backends)
    (audio : List Nat) (filename : Option String) (hint : Option String)
    (e : String) :
    (∀ t, strFalsy apiKey = false →
      B.primaryTranscribe audio (pyOrDefault filename "audio.wav") hint =
        Except.ok t →
      B.analyze t.text = Except.error e →
      (transcribe_and_analyze apiKey B audio filename Mode.clean hint).1 =
        Outcome.http 500 ("Erro ao analisar transcrição: " ++ e)) ∧
    (∀ ep t, strFalsy apiKey = false →
      B.primaryTranscribe audio (pyOrDefault filename "audio.wav") hint =
        Except.error ep →
      B.fallbackTranscribe audio (pyOrDefault filename "audio.wav") hint =
        Except.ok t →
      B.analyze t.text = Except.error e →
      (transcribe_and_analyze apiKey B audio filename Mode.clean hint).1 =
        Outcome.http 500 ("Erro ao analisar transcrição: " ++ e)) := by
  constructor
  · intro t hk hp ha
    simp [transcribe_and_analyze, hk, hp, afterTranscription, ha]
  · intro ep t hk hp hf ha
    simp [transcribe_and_analyze, hk, hp, hf, afterTranscription, ha]

/-- Backends whose analysis step fails. -/
def witnessBackends7 : Backends where
  primaryTranscribe := fun _ _ _ => Except.ok ⟨"texto", none⟩
  fallbackTranscribe := fun _ _ _ => Except.error "unused"
  analyze := fun _ => Except.error "invalid JSON"

theorem C7_analysis_failure_is_fatal_witness :
    (transcribe_and_analyze (some "sk") witnessBackends7 [2] none Mode.clean
        none).1 =
      Outcome.http 500 ("Erro ao analisar transcrição: " ++ "invalid JSON") :=
  (C7_analysis_failure_is_fatal (some "sk") witnessBackends7 [2] none none
    "invalid JSON").1 ⟨"texto", none⟩ rfl rfl rfl

/-! ## C9: the mode selector -/

/-- C9: the inbound boundary accepts exactly the two mode values "clean" and
"literal"; an omitted selector defaults to clean mode, any other value is
rejected with a 422 validation error and an empty call trace (the pipeline
never runs), so the pipeline only ever executes with a `Mode` value. -/
theorem C9_mode_selector (apiKey : Option String) (B : Backends)
    (audio : List Nat) (filename : Option String) (hint : Option String) :
    handleRequest apiKey B audio filename none hint =
      transcribe_and_analyze apiKey B audio filename Mode.clean hint ∧
    (∀ s m, parseMode (some s) = Except.ok m →
      (s = "clean" ∧ m = Mode.clean) ∨ (s = "literal" ∧ m = Mode.literal)) ∧
    (∀ s, s ≠ "clean" → s ≠ "literal" →
      handleRequest apiKey B audio filename (some s) hint =
        (Outcome.http 422 "Input should be 'clean' or 'literal'", [])) := by
  refine ⟨rfl, ?_, ?_⟩
  · intro s m hm
    by_cases h1 : s = "clean"
    · subst h1
      left
      refine ⟨rfl, ?_⟩
      cases m with
      | clean => rfl
      | literal => simp [parseMode] at hm
    · by_cases h2 : s = "literal"
      · subst h2
        right
        refine ⟨rfl, ?_⟩
        cases m with
        | clean => simp [parseMode, h1] at hm
        | literal => rfl
      · simp [parseMode, h1, h2] at hm
  · intro s h1 h2
    simp [handleRequest, parseMode, h1, h2]

/-- Arbitrary backends used to instantiate C9 at concrete inputs. -/
def witnessBackends9 : Backends where
  primaryTranscribe := fun _ _ _ => Except.ok ⟨"texto", none⟩
  fallbackTranscribe := fun _ _ _ => Except.error "unused"
  analyze := fun _ => Except.error "unused"

theorem C9_mode_selector_witness :
    handleRequest (some "sk") witnessBackends9 [3] none (some "raw") none =
      (Outcome.http 422 "Input should be 'clean' or 'literal'", []) :=
  (C9_mode_selector (some "sk") witnessBackends9 [3] none none).2.2 "raw"
    (by decide) (by decide)

/-! ## C10: default filename hint -/

/-- C10: when the upload carries no filename, the fixed hint "audio.wav" is
substituted, and it is the filename presented to the primary attempt and, if
the primary attempt fails, to the fallback attempt as well. -/
theorem C10_default_filename (apiKey : Option String) (B : Backends)
    (audio : List Nat) (mode : Mode) (hint : Option String)
    (hk : strFalsy apiKey = false) :
    (transcribe_and_analyze apiKey B audio none mode hint).2.take 2 =
      [Call.readAudio, Call.primary audio "audio.wav" hint] ∧
    (∀ e, B.primaryTranscribe audio "audio.wav" hint = Except.error e →
      (transcribe_and_analyze apiKey B audio none mode hint).2.take 3 =
        [Call.readAudio, Call.primary audio "audio.wav" hint,
         Call.fallback audio "audio.wav" hint]) := by
  constructor
  · cases hp : B.primaryTranscribe audio "audio.wav" hint with
    | ok t =>
      simp only [transcribe_and_analyze, hk, Bool.false_eq_true, if_false,
        pyOrDefault, hp]
      rcases afterTranscription_trace B mode (pyOr t.language hint) t.text
          [Call.readAudio, Call.primary audio "audio.wav" hint] with h | h <;>
        rw [h] <;> rfl
    | error e =>
      cases hf : B.fallbackTranscribe audio "audio.wav" hint with
      | ok t =>
        simp only [transcribe_and_analyze, hk, Bool.false_eq_true, if_false,
          pyOrDefault, hp, hf]
        rcases afterTranscription_trace B mode hint t.text
            [Call.readAudio, Call.primary audio "audio.wav" hint,
             Call.fallback audio "audio.wav" hint] with h | h <;>
          rw [h] <;> rfl
      | error e2 =>
        simp only [transcribe_and_analyze, hk, Bool.false_eq_true, if_false,
          pyOrDefault, hp, hf]
        rfl
  · intro e hp
    simp only [transcribe_and_analyze, hk, Bool.false_eq_true, if_false,
      pyOrDefault, hp]
    cases hf : B.fallbackTranscribe audio "audio.wav" hint with
    | ok t =>
      rcases afterTranscription_trace B mode hint t.text
          [Call.readAudio, Call.primary audio "audio.wav" hint,
           Call.fallback audio "audio.wav" hint] with h | h <;>
        rw [h] <;> rfl
    | error e2 => rfl

/-- Backends whose primary transcription fails, to instantiate C10. -/
def witnessBackends10 : Backends where
  primaryTranscribe := fun _ _ _ => Except.error "down"
  fallbackTranscribe := fun _ _ _ => Except.ok ⟨"texto", none⟩
  analyze := fun _ => Except.error "unused"

theorem C10_default_filename_witness :
    (transcribe_and_analyze (some "sk") witnessBackends10 [4] none Mode.literal
        (some "pt")).2.take 2 =
      [Call.readAudio, Call.primary [4] "audio.wav" (some "pt")] ∧
    (transcribe_and_analyze (some "sk") witnessBackends10 [4] none
        Mode.literal (some "pt")).2.take 3 =
      [Call.readAudio, Call.primary [4] "audio.wav" (some "pt"),
       Call.fallback [4] "audio.wav" (some "pt")] :=
  ⟨(C10_default_filename (some "sk") witnessBackends10 [4] Mode.literal
      (some "pt") rfl).1,
   (C10_default_filename (some "sk") witnessBackends10 [4] Mode.literal
      (some "pt") rfl).2 "down" rfl⟩
